import Mathlib

/-!
Verification of the ZeroBugAuthority backend (`backend/main.py`).

The core logic under verification:

* `parse_review_response` — splits a model-generated review into four
  severity sections and counts list-item markers in each.  The source uses
  `re.search(r'###.*?<Label>.*?\n(.*?)(?=###|\Z)', text, re.DOTALL)` for each
  of the four labels, and `re.findall(r'^\d+\.|^-|^\*', sec, re.MULTILINE)`
  to count items in a captured section.
* the two endpoint handlers `review_code` and `rewrite_code` — input
  validation, prompt rendering, provider invocation, error mapping.

Strings are modelled as `List Char` (Python `str` is a sequence of unicode
code points, as is `String.data`).  The regex calls are embedded by their
semantics on the two concrete patterns used by the source:

For `re.search(r'###.*?L.*?\n(.*?)(?=###|\Z)', s, re.DOTALL)` (no
`re.MULTILINE`, no `re.IGNORECASE`; `.` matches newlines): the engine scans
start positions left to right and, with all quantifiers lazy, the successful
match uses the first occurrence of `###`, then the first occurrence of the
literal label `L` at or after the position 3 past that, then the first `'\n'`
at or after the end of the label; the capture group runs from just past that
newline to the first following occurrence of `###`, or to the end of the
input when there is none.  (If any of the three searches fails there is no
match anywhere: every later start position only restricts the search ranges
further.)  `findFrom pat s start` below returns the least index `i ≥ start`
at which `pat` occurs in `s`, and `searchSection` chains the three searches
exactly as described.
-/

namespace ZeroBugAuthority

/-- Does the pattern `pat` occur in `s` starting at index `i`? -/
def occursAt (pat s : List Char) (i : Nat) : Bool :=
  pat.isPrefixOf (s.drop i)

/-- Bounded scan used by `findFrom`: tries `fuel` successive start
positions beginning at `start`. -/
def findFromAux (pat s : List Char) : Nat → Nat → Option Nat
  | 0, _ => none
  | fuel + 1, i => if occursAt pat s i then some i else findFromAux pat s fuel (i + 1)

/-- Least index `i ≥ start` with `occursAt pat s i`, scanning left to right
(the scan runs up to `s.length` inclusive, mirroring a regex engine's start
positions). -/
def findFrom (pat s : List Char) (start : Nat) : Option Nat :=
  findFromAux pat s (s.length + 1 - start) start

/-- The heading marker pattern, `###`. -/
def hash3 : List Char := ['#', '#', '#']

/-- Embedding of
`re.search(r'###.*?<label>.*?\n(.*?)(?=###|\Z)', s, re.DOTALL)`, returning
the capture group: the first `###` occurrence, then the first occurrence of
`label` at least 3 positions later, then the first newline after the label;
the capture runs from just past that newline up to the next `###` occurrence,
or to the end of the input. `none` is a failed search (section absent). -/
def searchSection (label s : List Char) : Option (List Char) :=
  match findFrom hash3 s 0 with
  | none => none
  | some p =>
    match findFrom label s (p + 3) with
    | none => none
    | some i =>
      match findFrom ['\n'] s (i + label.length) with
      | none => none
      | some j =>
        match findFrom hash3 s (j + 1) with
        | none => some (s.drop (j + 1))
        | some e => some ((s.drop (j + 1)).take (e - (j + 1)))

/-- Nat range test used by the Unicode character classes below. -/
def charInRange (lo hi n : Nat) : Bool :=
  decide (lo ≤ n ∧ n ≤ hi)

/-- Whitespace as stripped by Python `str.strip()` with no argument: the
characters on which `str.isspace()` holds — ASCII whitespace, the
information separators U+1C–U+1F, NEL, NBSP, and the Unicode space, line
and paragraph separators. -/
def pyIsSpace (c : Char) : Bool :=
  let n := c.toNat
  charInRange 0x9 0xD n || charInRange 0x1C 0x20 n || n == 0x85 ||
    n == 0xA0 || n == 0x1680 || charInRange 0x2000 0x200A n ||
    charInRange 0x2028 0x2029 n || n == 0x202F || n == 0x205F ||
    n == 0x3000

/-- The character class of `\d` in a Python 3 `str` pattern (no `re.ASCII`):
any Unicode decimal digit, i.e. general category Nd. -/
def pyIsDigit (c : Char) : Bool :=
  let n := c.toNat
  charInRange 0x30 0x39 n || charInRange 0x660 0x669 n ||
    charInRange 0x6F0 0x6F9 n || charInRange 0x7C0 0x7C9 n ||
    charInRange 0x966 0x96F n || charInRange 0x9E6 0x9EF n ||
    charInRange 0xA66 0xA6F n || charInRange 0xAE6 0xAEF n ||
    charInRange 0xB66 0xB6F n || charInRange 0xBE6 0xBEF n ||
    charInRange 0xC66 0xC6F n || charInRange 0xCE6 0xCEF n ||
    charInRange 0xD66 0xD6F n || charInRange 0xDE6 0xDEF n ||
    charInRange 0xE50 0xE59 n || charInRange 0xED0 0xED9 n ||
    charInRange 0xF20 0xF29 n || charInRange 0x1040 0x1049 n ||
    charInRange 0x1090 0x1099 n || charInRange 0x17E0 0x17E9 n ||
    charInRange 0x1810 0x1819 n || charInRange 0x1946 0x194F n ||
    charInRange 0x19D0 0x19D9 n || charInRange 0x1A80 0x1A89 n ||
    charInRange 0x1A90 0x1A99 n || charInRange 0x1B50 0x1B59 n ||
    charInRange 0x1BB0 0x1BB9 n || charInRange 0x1C40 0x1C49 n ||
    charInRange 0x1C50 0x1C59 n || charInRange 0xA620 0xA629 n ||
    charInRange 0xA8D0 0xA8D9 n || charInRange 0xA900 0xA909 n ||
    charInRange 0xA9D0 0xA9D9 n || charInRange 0xA9F0 0xA9F9 n ||
    charInRange 0xAA50 0xAA59 n || charInRange 0xABF0 0xABF9 n ||
    charInRange 0xFF10 0xFF19 n || charInRange 0x104A0 0x104A9 n ||
    charInRange 0x10D30 0x10D39 n || charInRange 0x11066 0x1106F n ||
    charInRange 0x110F0 0x110F9 n || charInRange 0x11136 0x1113F n ||
    charInRange 0x111D0 0x111D9 n || charInRange 0x112F0 0x112F9 n ||
    charInRange 0x11450 0x11459 n || charInRange 0x114D0 0x114D9 n ||
    charInRange 0x11650 0x11659 n || charInRange 0x116C0 0x116C9 n ||
    charInRange 0x11730 0x11739 n || charInRange 0x118E0 0x118E9 n ||
    charInRange 0x11950 0x11959 n || charInRange 0x11C50 0x11C59 n ||
    charInRange 0x11D50 0x11D59 n || charInRange 0x11DA0 0x11DA9 n ||
    charInRange 0x16A60 0x16A69 n || charInRange 0x16AC0 0x16AC9 n ||
    charInRange 0x16B50 0x16B59 n || charInRange 0x1D7CE 0x1D7FF n ||
    charInRange 0x1E140 0x1E149 n || charInRange 0x1E2F0 0x1E2F9 n ||
    charInRange 0x1E950 0x1E959 n || charInRange 0x1FBF0 0x1FBF9 n

/-- Embedding of Python `str.strip()`: remove leading and trailing
whitespace. -/
def pyStrip (s : List Char) : List Char :=
  ((s.dropWhile pyIsSpace).reverse.dropWhile pyIsSpace).reverse

/-- Does a line match `^\d+\.|^-|^\*` at its start?  The `^` anchors (with
`re.MULTILINE`) only match at column zero of a line, and a hit consumes at
least one character without crossing a newline, so each line contributes at
most one `re.findall` hit, decided by its first characters alone; `\d` is
any Unicode decimal digit (`pyIsDigit`). -/
def startsMarker (l : List Char) : Bool :=
  (l.head? == some '-') || (l.head? == some '*') ||
    (decide (l.takeWhile pyIsDigit ≠ []) &&
      ((l.drop (l.takeWhile pyIsDigit).length).head? == some '.'))

/-- Embedding of `count_items` from `parse_review_response`: the number of
`re.findall(r'^\d+\.|^-|^\*', text, re.MULTILINE)` matches, i.e. the number
of lines (pieces delimited by `'\n'`, including a leading piece and a trailing
empty piece after a final newline) that begin with a list marker; a missing
section counts 0. -/
def count_items (sec : Option (List Char)) : Nat :=
  match sec with
  | none => 0
  | some text => (text.splitOn '\n').countP startsMarker

/-- The four severity labels searched for by `parse_review_response`. -/
def criticalLabel : List Char := "Critical Issues".data

def highLabel : List Char := "High Priority".data

def mediumLabel : List Char := "Medium Priority".data

def lowLabel : List Char := "Low Priority".data

/-- The dictionary of four counts returned by `parse_review_response`. -/
structure Counts where
  critical_count : Nat
  high_count : Nat
  medium_count : Nat
  low_count : Nat
deriving DecidableEq, Repr

/-- Embedding of `parse_review_response` from `backend/main.py`. -/
def parse_review_response (review_text : String) : Counts :=
  { critical_count := count_items (searchSection criticalLabel review_text.data)
    high_count := count_items (searchSection highLabel review_text.data)
    medium_count := count_items (searchSection mediumLabel review_text.data)
    low_count := count_items (searchSection lowLabel review_text.data) }

/-- The `CodeReviewRequest` pydantic model. -/
structure CodeReviewRequest where
  code : String
  language : String
  focus_areas : List String

/-- The `CodeRewriteRequest` pydantic model. -/
structure CodeRewriteRequest where
  code : String
  language : String

/-- The `ReviewResponse` pydantic model. -/
structure ReviewResponse where
  review : String
  critical_count : Nat
  high_count : Nat
  medium_count : Nat
  low_count : Nat
deriving DecidableEq, Repr

/-- Either an HTTP error raised via `HTTPException(status_code, detail)`, or
a successful payload. -/
inductive HandlerResult (α : Type) where
  | httpError (status : Nat) (detail : String)
  | ok (payload : α)
deriving DecidableEq, Repr

/-- Embedding of the focus-area formatting in `review_code`:
`", ".join(request.focus_areas) if request.focus_areas else "all aspects"`
(an empty list is falsy in Python). -/
def focus_str (focus_areas : List String) : String :=
  if focus_areas.isEmpty then "all aspects" else String.intercalate ", " focus_areas

/-- The review prompt f-string from `review_code`, rendered verbatim. -/
def reviewPrompt (request : CodeReviewRequest) : String :=
  "You are an expert code reviewer with 15+ years of experience. Analyze this " ++
    request.language ++ " code focusing on: " ++ focus_str request.focus_areas ++
    "." ++ "\n\nCode:\n" ++ "```" ++ request.language ++ "\n" ++ request.code ++
    "\n```" ++
    "\n\nProvide a detailed review in this exact format:\n\n### 🔴 Critical Issues\n[List each critical bug or security vulnerability as separate bullet points]\n- [Another critical issue if exists]\n\n### 🟠 High Priority\n[List high priority items as separate bullet points]\n\n### 🟡 Medium Priority\n[List medium priority items as separate bullet points]\n\n### 🟢 Low Priority\n[List low priority items as separate bullet points]\n\nBe specific about line numbers and provide clear explanations."

/-- The rewrite prompt f-string from `rewrite_code`, rendered verbatim. -/
def rewritePrompt (request : CodeRewriteRequest) : String :=
  "You are an expert " ++ request.language ++
    " developer. Rewrite this code to fix all issues, improve performance, enhance security, and follow best practices.\n\nOriginal Code:\n```" ++
    request.language ++ "\n" ++ request.code ++
    "\n```\n\nProvide:\n1. **Rewritten Code** (clean, optimized, production-ready)\n2. **Key Improvements** (list 3-5 main changes)\n3. **Explanation** (brief summary of what was improved)\n\nFormat your response as:\n### ✨ Rewritten Code\n```" ++
    request.language ++ "\n[optimized code here]\n```\n\n### 💡 Key Improvements\n- Improvement 1\n- Improvement 2\n- Improvement 3\n\n### 📖 Explanation\n[Brief summary]"

/-- Embedding of the `POST /api/review` handler `review_code`.  The
`provider` argument models the call `client.chat.completions.create(...)`
together with the extraction `chat_completion.choices[0].message.content`
(everything that can raise inside the `try`): `.ok text` is a successful
model response, `.error e` any raised exception whose `str` is `e`.  The
handler makes at most one provider call and no retries, which the model
captures by taking `provider` as an arbitrary function applied once. -/
def review_code (provider : String → Except String String)
    (request : CodeReviewRequest) : HandlerResult ReviewResponse :=
  if (pyStrip request.code.data).isEmpty then
    .httpError 400 "Code cannot be empty"
  else
    match provider (reviewPrompt request) with
    | .error e => .httpError 500 ("Error calling Groq API: " ++ e)
    | .ok review_text =>
      let counts := parse_review_response review_text
      .ok { review := review_text
            critical_count := counts.critical_count
            high_count := counts.high_count
            medium_count := counts.medium_count
            low_count := counts.low_count }

/-- Embedding of the `POST /api/rewrite` handler `rewrite_code`; the payload
is the `rewritten_code` field of the returned dictionary. -/
def rewrite_code (provider : String → Except String String)
    (request : CodeRewriteRequest) : HandlerResult String :=
  if (pyStrip request.code.data).isEmpty then
    .httpError 400 "Code cannot be empty"
  else
    match provider (rewritePrompt request) with
    | .error e => .httpError 500 ("Error calling Groq API: " ++ e)
    | .ok content => .ok content

/-- The marker condition of amended claim C3, stated independently of the
regex scan: the line's first character (at column zero, with no whitespace
skipping) is `-` or `*`, or the line begins with a nonempty run of decimal
digits (any Unicode decimal digit, as `\d` matches) followed by `.`. -/
def markerLineSpec (l : List Char) : Prop :=
  (∃ t, l = '-' :: t) ∨ (∃ t, l = '*' :: t) ∨
    (∃ ds t, ds ≠ [] ∧ (∀ c ∈ ds, pyIsDigit c = true) ∧ l = ds ++ '.' :: t)

/-- The marker condition in claim C3's original wording (for the
counterexample, not from the source): leading whitespace on the line is
skipped before looking for the marker. -/
def claimMarkerAfterWs (l : List Char) : Bool :=
  startsMarker (l.dropWhile fun c => c == ' ' || c == '\t')

theorem findFromAux_some_spec (pat s : List Char) (fuel start i : Nat)
    (h : findFromAux pat s fuel start = some i) :
    start ≤ i ∧ i < start + fuel ∧ occursAt pat s i = true ∧
      ∀ k, start ≤ k → k < i → occursAt pat s k = false := by
  induction fuel generalizing start with
  | zero => simp [findFromAux] at h
  | succ fuel ih =>
    rw [findFromAux] at h
    by_cases hocc : occursAt pat s start = true
    · rw [if_pos hocc] at h
      cases h
      exact ⟨Nat.le_refl _, by omega, hocc, fun k hk1 hk2 => by omega⟩
    · have hocc' : occursAt pat s start = false := by
        simpa using hocc
      rw [if_neg hocc] at h
      obtain ⟨h1, h2, h3, h4⟩ := ih (start + 1) h
      refine ⟨by omega, by omega, h3, ?_⟩
      intro k hk1 hk2
      rcases Nat.eq_or_lt_of_le hk1 with heq | hlt'
      · rw [← heq]; exact hocc'
      · exact h4 k hlt' hk2

theorem findFromAux_none_spec (pat s : List Char) (fuel start : Nat)
    (h : findFromAux pat s fuel start = none) :
    ∀ k, start ≤ k → k < start + fuel → occursAt pat s k = false := by
  induction fuel generalizing start with
  | zero => intro k hk1 hk2; omega
  | succ fuel ih =>
    rw [findFromAux] at h
    by_cases hocc : occursAt pat s start = true
    · rw [if_pos hocc] at h
      cases h
    · have hocc' : occursAt pat s start = false := by
        simpa using hocc
      rw [if_neg hocc] at h
      intro k hk1 hk2
      rcases Nat.eq_or_lt_of_le hk1 with heq | hlt'
      · rw [← heq]; exact hocc'
      · exact ih (start + 1) h k hlt' (by omega)

theorem findFromAux_eq_some (pat s : List Char) (fuel start i : Nat)
    (h1 : start ≤ i) (h2 : occursAt pat s i = true) (h3 : i < start + fuel)
    (hmin : ∀ k, start ≤ k → k < i → occursAt pat s k = false) :
    findFromAux pat s fuel start = some i := by
  induction fuel generalizing start with
  | zero => omega
  | succ fuel ih =>
    rw [findFromAux]
    by_cases hocc : occursAt pat s start = true
    · have hix : i = start := by
        by_contra hne
        have hxi : start < i := by omega
        have := hmin start (Nat.le_refl _) hxi
        rw [this] at hocc
        cases hocc
      rw [if_pos hocc, hix]
    · have hsi : start < i := by
        rcases Nat.eq_or_lt_of_le h1 with heq | hq
        · rw [← heq] at h2; exact absurd h2 hocc
        · exact hq
      rw [if_neg hocc]
      exact ih (start + 1) hsi (by omega) fun k hk1 hk2 => hmin k (by omega) hk2

theorem findFromAux_eq_none (pat s : List Char) (fuel start : Nat)
    (h : ∀ k, start ≤ k → k < start + fuel → occursAt pat s k = false) :
    findFromAux pat s fuel start = none := by
  induction fuel generalizing start with
  | zero => rw [findFromAux]
  | succ fuel ih =>
    rw [findFromAux]
    have hocc := h start (Nat.le_refl _) (by omega)
    rw [if_neg (by simp [hocc])]
    exact ih (start + 1) fun k hk1 hk2 => h k (by omega) (by omega)

theorem findFrom_some_spec (pat s : List Char) (start i : Nat)
    (h : findFrom pat s start = some i) :
    start ≤ i ∧ i ≤ s.length ∧ occursAt pat s i = true ∧
      ∀ k, start ≤ k → k < i → occursAt pat s k = false := by
  unfold findFrom at h
  obtain ⟨h1, h2, h3, h4⟩ := findFromAux_some_spec pat s _ start i h
  exact ⟨h1, by omega, h3, h4⟩

theorem findFrom_none_spec (pat s : List Char) (start : Nat)
    (h : findFrom pat s start = none) :
    ∀ k, start ≤ k → k ≤ s.length → occursAt pat s k = false := by
  unfold findFrom at h
  intro k hk1 hk2
  exact findFromAux_none_spec pat s _ start h k hk1 (by omega)

theorem findFrom_eq_some (pat s : List Char) (start i : Nat)
    (h1 : start ≤ i) (h2 : occursAt pat s i = true) (h3 : i ≤ s.length)
    (hmin : ∀ k, start ≤ k → k < i → occursAt pat s k = false) :
    findFrom pat s start = some i := by
  unfold findFrom
  exact findFromAux_eq_some pat s _ start i h1 h2 (by omega) hmin

theorem findFrom_eq_none (pat s : List Char) (start : Nat)
    (h : ∀ k, start ≤ k → k ≤ s.length → occursAt pat s k = false) :
    findFrom pat s start = none := by
  unfold findFrom
  exact findFromAux_eq_none pat s _ start fun k hk1 hk2 => h k hk1 (by omega)

/-- Dropping a common prefix commutes with occurrence testing: the suffix `b`
of `a ++ b` sees the same occurrences, shifted by `a.length`. -/
theorem occursAt_append_shift (pat a b : List Char) (m : Nat) :
    occursAt pat (a ++ b) (a.length + m) = occursAt pat b m := by
  unfold occursAt
  rw [← List.drop_drop, List.drop_left]

theorem head?_drop_eq (s : List Char) (i : Nat) : (s.drop i).head? = s[i]? := by
  rcases Nat.lt_or_ge i s.length with h | h
  · rw [List.drop_eq_getElem_cons h]
    simp [List.getElem?_eq_getElem h]
  · rw [List.drop_of_length_le h]
    simp [List.getElem?_eq_none_iff.mpr h]

/-- An occurrence of a cons pattern pins down the character at that index. -/
theorem occursAt_cons_getElem (c : Char) (p s : List Char) (i : Nat)
    (h : occursAt (c :: p) s i = true) : s[i]? = some c := by
  unfold occursAt at h
  rw [ List.isPrefixOf_iff_prefix] at h
  obtain ⟨t, ht⟩ := h
  have hh : (s.drop i).head? = some c := by rw [← ht]; rfl
  rwa [head?_drop_eq] at hh

/-- A nonempty pattern's occurrence fits inside the string. -/
theorem occursAt_length (pat s : List Char) (i : Nat)
    (h : occursAt pat s i = true) (hne : pat ≠ []) : i + pat.length ≤ s.length := by
  unfold occursAt at h
  rw [ List.isPrefixOf_iff_prefix] at h
  have h1 := h.length_le
  have h2 : 0 < pat.length := List.length_pos.mpr hne
  simp [List.length_drop] at h1
  omega

/-- Searches occurring wholly inside the suffix `b` of `a ++ b` reduce to
searches in `b`. -/
theorem findFrom_append_shift (pat a b : List Char) (m : Nat) :
    findFrom pat (a ++ b) (a.length + m) =
      (findFrom pat b m).map (fun i => a.length + i) := by
  cases hfb : findFrom pat b m with
  | none =>
    simp only [Option.map_none']
    apply findFrom_eq_none
    intro k hk1 hk2
    have hk3 : a.length ≤ k := by omega
    obtain ⟨m', rfl⟩ := Nat.exists_eq_add_of_le hk3
    rw [occursAt_append_shift]
    have hlen : m' ≤ b.length := by
      simp [List.length_append] at hk2
      omega
    exact findFrom_none_spec pat b m hfb m' (by omega) hlen
  | some i =>
    simp only [Option.map_some']
    obtain ⟨h1, h2, h3, h4⟩ := findFrom_some_spec pat b m i hfb
    apply findFrom_eq_some
    · omega
    · rw [occursAt_append_shift]; exact h3
    · simp [List.length_append]; omega
    · intro k hk1 hk2
      have hk3 : a.length ≤ k := by omega
      obtain ⟨m', rfl⟩ := Nat.exists_eq_add_of_le hk3
      rw [occursAt_append_shift]
      exact h4 m' (by omega) (by omega)


theorem pyStrip_eq_nil_iff (s : List Char) :
    pyStrip s = [] ↔ ∀ c ∈ s, pyIsSpace c = true := by
  unfold pyStrip
  rw [List.reverse_eq_nil_iff, List.dropWhile_eq_nil_iff]
  constructor
  · intro h c hc
    rw [← List.takeWhile_append_dropWhile (p := pyIsSpace) (l := s)] at hc
    rcases List.mem_append.mp hc with hc1 | hc2
    · exact List.mem_takeWhile_imp hc1
    · exact h c (List.mem_reverse.mpr hc2)
  · intro h c hc
    exact h c ((List.dropWhile_sublist pyIsSpace).subset (List.mem_reverse.mp hc))

/-- Claim C1: on the spec's worked example the classifier returns
`critical_count = 2`, `low_count = 1`, `high_count = 0`, `medium_count = 0`. -/
theorem claim_C1 :
    parse_review_response
        "### Critical Issues\n1. SQL injection\n2. Null pointer\n### Low Priority\n- unused import" =
      { critical_count := 2, high_count := 0, medium_count := 0, low_count := 1 } := by
  decide

/-- Claim C10 (implicit): a line whose first character at column zero is `-`
or `*` counts as one issue even when no space or item text follows the
marker; in particular a horizontal rule `---` and a bold-prefixed line
`**Note**` each add one to their section's count. -/
theorem claim_C10 :
    (∀ t : List Char, startsMarker ('-' :: t) = true ∧ startsMarker ('*' :: t) = true) ∧
      (parse_review_response "### Critical Issues\n---\n**Note**\n").critical_count = 2 := by
  refine ⟨fun t => ⟨rfl, rfl⟩, by decide⟩

/-- Counterexample to claim C2: heading matching is case-SENSITIVE (the
regex has no `re.IGNORECASE`).  "### CRITICAL ISSUES" begins with a heading
marker and contains the label up to letter case, yet its section is not
located (count 0) while the exact-case variant of the same text counts 1.
Third conjunct: the captured text is also not always "all text until the
next heading marker" after a heading line — when the label text occurs in a
body line after an earlier bare `###`, the genuine heading's items are not
counted at all. -/
theorem claim_C2_counterexample :
    (parse_review_response "### CRITICAL ISSUES\n1. x\n").critical_count = 0 ∧
      (parse_review_response "### Critical Issues\n1. x\n").critical_count = 1 ∧
      (parse_review_response
          "###\nCritical Issues mentioned here\n### Critical Issues\n- a\n- b\n").critical_count = 0 := by
  refine ⟨by decide, by decide, by decide⟩

/-- Counterexample to claim C3: a marker preceded by leading whitespace is
NOT counted.  The section captured for "Critical Issues" is "  - indented\n";
its first line starts with a bullet marker after leading whitespace — the
claim's reading (`claimMarkerAfterWs`) counts it — but the code counts 0. -/
theorem claim_C3_counterexample :
    searchSection criticalLabel "### Critical Issues\n  - indented\n".data =
        some "  - indented\n".data ∧
      claimMarkerAfterWs "  - indented".data = true ∧
      (parse_review_response "### Critical Issues\n  - indented\n").critical_count = 0 := by
  refine ⟨by decide, by decide, by decide⟩

/-- Amended claim C3: within a captured section the classifier counts
exactly those lines that start AT COLUMN ZERO — no leading whitespace is
skipped — with a numbered-list marker (a nonempty run of Unicode decimal
digits followed immediately by `.`) or a bullet marker (`-` or `*`); each such line counts
one issue regardless of its content, and continuation lines not starting
with a marker add nothing (joining marker-free-of-newline lines with
newlines and counting depends only on each line's own leading characters). -/
theorem claim_C3_amended (lines : List (List Char))
    (hnl : ∀ l ∈ lines, '\n' ∉ l) (hne : lines ≠ []) :
    count_items (some (List.intercalate ['\n'] lines)) = lines.countP startsMarker ∧
      ∀ l : List Char, startsMarker l = true ↔ markerLineSpec l := by
  constructor
  · show ((List.intercalate ['\n'] lines).splitOn '\n').countP startsMarker = _
    rw [List.splitOn_intercalate lines '\n' hnl hne]
  · intro l
    constructor
    · intro h
      simp only [startsMarker, Bool.or_eq_true, Bool.and_eq_true, beq_iff_eq,
        decide_eq_true_eq] at h
      rcases h with (h | h) | h
      · obtain ⟨t, ht⟩ := List.head?_eq_some_iff.mp h
        exact Or.inl ⟨t, ht⟩
      · obtain ⟨t, ht⟩ := List.head?_eq_some_iff.mp h
        exact Or.inr (Or.inl ⟨t, ht⟩)
      · obtain ⟨hne', hdot⟩ := h
        obtain ⟨t, ht⟩ := List.head?_eq_some_iff.mp hdot
        refine Or.inr (Or.inr ⟨l.takeWhile pyIsDigit, t, hne', ?_, ?_⟩)
        · intro c hc
          exact List.mem_takeWhile_imp hc
        · have htake : l.takeWhile pyIsDigit =
              l.take (l.takeWhile pyIsDigit).length :=
            List.prefix_iff_eq_take.mp ( List.takeWhile_prefix _)
          conv_lhs => rw [← List.take_append_drop (l.takeWhile pyIsDigit).length l]
          rw [ht, ← htake]
    · intro h
      have hdotc : pyIsDigit '.' = false := by decide
      rcases h with ⟨t, rfl⟩ | ⟨t, rfl⟩ | ⟨ds, t, hds, hdig, rfl⟩
      · rfl
      · rfl
      · have htw : (ds ++ '.' :: t).takeWhile pyIsDigit = ds := by
          rw [List.takeWhile_append_of_pos hdig, List.takeWhile_cons, hdotc]
          simp
        unfold startsMarker
        rw [htw]
        simp [List.drop_left, hds]

/-- Claim C4: for every request whose code is empty or all-whitespace, both
endpoints fail with HTTP 400 and the fixed message "Code cannot be empty",
for EVERY provider — the result does not depend on the provider, so no
provider call is observable. -/
theorem claim_C4 (provider : String → Except String String)
    (request : CodeReviewRequest) (request' : CodeRewriteRequest)
    (hreq : ∀ c ∈ request.code.data, pyIsSpace c = true)
    (hreq' : ∀ c ∈ request'.code.data, pyIsSpace c = true) :
    review_code provider request = .httpError 400 "Code cannot be empty" ∧
      rewrite_code provider request' = .httpError 400 "Code cannot be empty" := by
  constructor
  · unfold review_code
    rw [if_pos (by rw [List.isEmpty_iff]; exact (pyStrip_eq_nil_iff _).mpr hreq)]
  · unfold rewrite_code
    rw [if_pos (by rw [List.isEmpty_iff]; exact (pyStrip_eq_nil_iff _).mpr hreq')]

theorem claim_C4_witness :
    review_code (fun _ => Except.error "network down") ⟨" \u00A0\t\n", "python", []⟩ =
        .httpError 400 "Code cannot be empty" ∧
      rewrite_code (fun _ => Except.error "network down") ⟨"", "python"⟩ =
        .httpError 400 "Code cannot be empty" :=
  claim_C4 (fun _ => Except.error "network down") ⟨" \u00A0\t\n", "python", []⟩
    ⟨"", "python"⟩ (by decide) (by decide)

/-- Claim C5: for every request whose code is not empty/all-whitespace, if
the provider call raises with message `e`, each endpoint returns HTTP 500
whose detail interpolates the underlying error text after the fixed prefix;
the failure is not classified further and the single provider application in
the handler is not retried. -/
theorem claim_C5 (e : String)
    (request : CodeReviewRequest) (request' : CodeRewriteRequest)
    (hreq : ¬ ∀ c ∈ request.code.data, pyIsSpace c = true)
    (hreq' : ¬ ∀ c ∈ request'.code.data, pyIsSpace c = true) :
    review_code (fun _ => Except.error e) request =
        .httpError 500 ("Error calling Groq API: " ++ e) ∧
      rewrite_code (fun _ => Except.error e) request' =
        .httpError 500 ("Error calling Groq API: " ++ e) := by
  constructor
  · unfold review_code
    rw [if_neg (by rw [List.isEmpty_iff]; exact fun hc => hreq ((pyStrip_eq_nil_iff _).mp hc))]
  · unfold rewrite_code
    rw [if_neg (by rw [List.isEmpty_iff]; exact fun hc => hreq' ((pyStrip_eq_nil_iff _).mp hc))]

theorem claim_C5_witness :
    review_code (fun _ => Except.error "quota exceeded") ⟨"print(1)", "python", []⟩ =
        .httpError 500 ("Error calling Groq API: " ++ "quota exceeded") ∧
      rewrite_code (fun _ => Except.error "quota exceeded") ⟨"print(1)", "python"⟩ =
        .httpError 500 ("Error calling Groq API: " ++ "quota exceeded") :=
  claim_C5 "quota exceeded" ⟨"print(1)", "python", []⟩ ⟨"print(1)", "python"⟩
    (by decide) (by decide)

set_option maxRecDepth 8192 in
/-- Claim C8: review prompt rendering is a pure function of the request
(determinism is structural in the embedding); the rendered prompt contains
"code focusing on: " followed by the focus areas joined with ", " in their
given order — or the literal "all aspects" when the list is empty — and
contains the code embedded in a fenced block opened by three backticks
tagged with the request's language. -/
theorem claim_C8 (request : CodeReviewRequest) :
    ((" code focusing on: " ++
        (if request.focus_areas = [] then "all aspects"
          else String.intercalate ", " request.focus_areas)).data
      <:+: (reviewPrompt request).data) ∧
    (("```" ++ request.language ++ "\n" ++ request.code ++ "\n```").data
      <:+: (reviewPrompt request).data) := by
  have hfocus : focus_str request.focus_areas =
      (if request.focus_areas = [] then "all aspects"
        else String.intercalate ", " request.focus_areas) := by
    unfold focus_str
    by_cases h : request.focus_areas = [] <;> simp [h, List.isEmpty_iff]
  constructor
  · refine ⟨("You are an expert code reviewer with 15+ years of experience. Analyze this " ++
        request.language).data,
      ("." ++ "\n\nCode:\n" ++ "```" ++ request.language ++ "\n" ++ request.code ++
        "\n```" ++
        "\n\nProvide a detailed review in this exact format:\n\n### 🔴 Critical Issues\n[List each critical bug or security vulnerability as separate bullet points]\n- [Another critical issue if exists]\n\n### 🟠 High Priority\n[List high priority items as separate bullet points]\n\n### 🟡 Medium Priority\n[List medium priority items as separate bullet points]\n\n### 🟢 Low Priority\n[List low priority items as separate bullet points]\n\nBe specific about line numbers and provide clear explanations.").data, ?_⟩
    rw [← hfocus]
    simp only [reviewPrompt, String.data_append, List.append_assoc]
  · refine ⟨("You are an expert code reviewer with 15+ years of experience. Analyze this " ++
        request.language ++ " code focusing on: " ++ focus_str request.focus_areas ++
        "." ++ "\n\nCode:\n").data,
      ("\n\nProvide a detailed review in this exact format:\n\n### 🔴 Critical Issues\n[List each critical bug or security vulnerability as separate bullet points]\n- [Another critical issue if exists]\n\n### 🟠 High Priority\n[List high priority items as separate bullet points]\n\n### 🟡 Medium Priority\n[List medium priority items as separate bullet points]\n\n### 🟢 Low Priority\n[List low priority items as separate bullet points]\n\nBe specific about line numbers and provide clear explanations.").data, ?_⟩
    simp only [reviewPrompt, String.data_append, List.append_assoc]

/-- Claim C9: the classifier is a pure function of the review text (purity
and run-to-run determinism are structural in the embedding — the same text
always yields the same `Counts` value); the state-independence invariant
behind the claim is verified on the handler: every successful review
response carries exactly the four counts computed by `parse_review_response`
from its own `review` text, for any provider and any request. -/
theorem claim_C9 (provider : String → Except String String)
    (request : CodeReviewRequest) (resp : ReviewResponse)
    (h : review_code provider request = .ok resp) :
    resp.critical_count = (parse_review_response resp.review).critical_count ∧
      resp.high_count = (parse_review_response resp.review).high_count ∧
      resp.medium_count = (parse_review_response resp.review).medium_count ∧
      resp.low_count = (parse_review_response resp.review).low_count := by
  unfold review_code at h
  by_cases hc : (pyStrip request.code.data).isEmpty = true
  · rw [if_pos hc] at h
    cases h
  · rw [if_neg hc] at h
    cases hp : provider (reviewPrompt request) with
    | error e =>
      rw [hp] at h
      cases h
    | ok text =>
      rw [hp] at h
      cases h
      exact ⟨rfl, rfl, rfl, rfl⟩

theorem claim_C9_witness :
    ({ review := "### Critical Issues\n- a\n", critical_count := 1, high_count := 0,
        medium_count := 0, low_count := 0 } : ReviewResponse).critical_count =
        (parse_review_response "### Critical Issues\n- a\n").critical_count ∧
      ({ review := "### Critical Issues\n- a\n", critical_count := 1, high_count := 0,
          medium_count := 0, low_count := 0 } : ReviewResponse).high_count =
        (parse_review_response "### Critical Issues\n- a\n").high_count ∧
      ({ review := "### Critical Issues\n- a\n", critical_count := 1, high_count := 0,
          medium_count := 0, low_count := 0 } : ReviewResponse).medium_count =
        (parse_review_response "### Critical Issues\n- a\n").medium_count ∧
      ({ review := "### Critical Issues\n- a\n", critical_count := 1, high_count := 0,
          medium_count := 0, low_count := 0 } : ReviewResponse).low_count =
        (parse_review_response "### Critical Issues\n- a\n").low_count :=
  claim_C9 (fun _ => Except.ok "### Critical Issues\n- a\n") ⟨"x = 1", "python", []⟩
    ⟨"### Critical Issues\n- a\n", 1, 0, 0, 0⟩ (by decide)

/-- Claim C6: an absent severity section yields a count of 0 for that label,
and a review text with no heading marker occurrence at all yields all four
counts 0; the embedded classifier is a total function, so no error can be
raised. -/
theorem claim_C6 (s : String) :
    (∀ label, searchSection label s.data = none →
        count_items (searchSection label s.data) = 0) ∧
      ((∀ k, k ≤ s.data.length → occursAt hash3 s.data k = false) →
        parse_review_response s =
          { critical_count := 0, high_count := 0, medium_count := 0, low_count := 0 }) := by
  constructor
  · intro label h
    rw [h]
    rfl
  · intro h
    have hff : findFrom hash3 s.data 0 = none :=
      findFrom_eq_none hash3 s.data 0 fun k _ hk2 => h k hk2
    have hsec : ∀ label, searchSection label s.data = none := by
      intro label
      unfold searchSection
      rw [hff]
    unfold parse_review_response
    rw [hsec criticalLabel, hsec highLabel, hsec mediumLabel, hsec lowLabel]
    rfl

theorem claim_C6_witness :
    parse_review_response "no recognizable headings at all" =
      { critical_count := 0, high_count := 0, medium_count := 0, low_count := 0 } :=
  (claim_C6 "no recognizable headings at all").2 (by decide)


/-- Decomposition of a successful section search: when the input splits as
`a ++ "###" ++ b ++ label ++ c ++ "\n" ++ d`, with no `###` occurrence
starting inside `a`, no `label` occurrence starting strictly inside the
`b` filler, and no newline in `c`, the regex embedding captures exactly `d`
truncated at the first `###` occurrence inside `d` (all of `d` when none). -/
theorem searchSection_decomp (label a b c d : List Char)
    (ha : ∀ k, k < a.length →
      occursAt hash3 (a ++ hash3 ++ b ++ label ++ c ++ '\n' :: d) k = false)
    (hb : ∀ k, a.length + 3 ≤ k → k < a.length + 3 + b.length →
      occursAt label (a ++ hash3 ++ b ++ label ++ c ++ '\n' :: d) k = false)
    (hc : '\n' ∉ c) :
    searchSection label (a ++ hash3 ++ b ++ label ++ c ++ '\n' :: d) =
      some (match findFrom hash3 d 0 with
        | none => d
        | some e => d.take e) := by
  have hsplit1 : a ++ hash3 ++ b ++ label ++ c ++ '\n' :: d =
      a ++ (hash3 ++ (b ++ (label ++ (c ++ '\n' :: d)))) := by
    simp [List.append_assoc]
  have hsplit2 : a ++ hash3 ++ b ++ label ++ c ++ '\n' :: d =
      (a ++ hash3 ++ b) ++ (label ++ (c ++ '\n' :: d)) := by
    simp [List.append_assoc]
  have hsplit3 : a ++ hash3 ++ b ++ label ++ c ++ '\n' :: d =
      (a ++ hash3 ++ b ++ label) ++ (c ++ '\n' :: d) := by
    simp [List.append_assoc]
  have hsplit4 : a ++ hash3 ++ b ++ label ++ c ++ '\n' :: d =
      (a ++ hash3 ++ b ++ label ++ c) ++ ('\n' :: d) := by
    simp [List.append_assoc]
  have hsplit5 : a ++ hash3 ++ b ++ label ++ c ++ '\n' :: d =
      (a ++ hash3 ++ b ++ label ++ c ++ ['\n']) ++ d := by
    simp [List.append_assoc]
  have hlen : (a ++ hash3 ++ b ++ label ++ c ++ '\n' :: d).length =
      a.length + 3 + b.length + label.length + c.length + 1 + d.length := by
    simp [hash3]
    omega
  have habl : (a ++ hash3 ++ b).length = a.length + 3 + b.length := by
    simp [hash3]
    omega
  have hablab : (a ++ hash3 ++ b ++ label).length =
      a.length + 3 + b.length + label.length := by
    simp [hash3]
    omega
  have hablc : (a ++ hash3 ++ b ++ label ++ c).length =
      a.length + 3 + b.length + label.length + c.length := by
    simp [hash3]
    omega
  have hxlen : (a ++ hash3 ++ b ++ label ++ c ++ ['\n']).length =
      a.length + 3 + b.length + label.length + c.length + 1 := by
    simp [hash3]
    omega
  have hp_occ : occursAt hash3 (a ++ hash3 ++ b ++ label ++ c ++ '\n' :: d)
      a.length = true := by
    rw [hsplit1]
    have h0 := occursAt_append_shift hash3 a
      (hash3 ++ (b ++ (label ++ (c ++ '\n' :: d)))) 0
    rw [Nat.add_zero] at h0
    rw [h0]
    unfold occursAt
    rw [List.drop_zero]
    exact List.isPrefixOf_iff_prefix.mpr (List.prefix_append hash3 _)
  have hp : findFrom hash3 (a ++ hash3 ++ b ++ label ++ c ++ '\n' :: d) 0 =
      some a.length := by
    apply findFrom_eq_some
    · exact Nat.zero_le _
    · exact hp_occ
    · rw [hlen]; omega
    · intro k _ hk1
      exact ha k hk1
  have hi_occ : occursAt label (a ++ hash3 ++ b ++ label ++ c ++ '\n' :: d)
      (a.length + 3 + b.length) = true := by
    rw [hsplit2]
    have h0 := occursAt_append_shift label (a ++ hash3 ++ b)
      (label ++ (c ++ '\n' :: d)) 0
    rw [Nat.add_zero, habl] at h0
    rw [h0]
    unfold occursAt
    rw [List.drop_zero]
    exact List.isPrefixOf_iff_prefix.mpr (List.prefix_append label _)
  have hi : findFrom label (a ++ hash3 ++ b ++ label ++ c ++ '\n' :: d)
      (a.length + 3) = some (a.length + 3 + b.length) := by
    apply findFrom_eq_some
    · omega
    · exact hi_occ
    · rw [hlen]; omega
    · intro k hk0 hk1
      exact hb k hk0 hk1
  have hj_occ : occursAt ['\n'] (a ++ hash3 ++ b ++ label ++ c ++ '\n' :: d)
      (a.length + 3 + b.length + label.length + c.length) = true := by
    rw [hsplit4]
    have h0 := occursAt_append_shift ['\n'] (a ++ hash3 ++ b ++ label ++ c)
      ('\n' :: d) 0
    rw [Nat.add_zero, hablc] at h0
    rw [h0]
    simp [occursAt, List.isPrefixOf]
  have hj : findFrom ['\n'] (a ++ hash3 ++ b ++ label ++ c ++ '\n' :: d)
      (a.length + 3 + b.length + label.length) =
      some (a.length + 3 + b.length + label.length + c.length) := by
    apply findFrom_eq_some
    · omega
    · exact hj_occ
    · rw [hlen]; omega
    · intro k hk0 hk1
      cases hocc : occursAt ['\n'] (a ++ hash3 ++ b ++ label ++ c ++ '\n' :: d) k with
      | false => rfl
      | true =>
        exfalso
        have hchar := occursAt_cons_getElem '\n' []
          (a ++ hash3 ++ b ++ label ++ c ++ '\n' :: d) k hocc
        rw [hsplit3] at hchar
        rw [List.getElem?_append_right (by rw [hablab]; omega)] at hchar
        rw [hablab] at hchar
        rw [List.getElem?_append_left (by omega)] at hchar
        exact hc (List.getElem?_mem hchar)
  have hshift := findFrom_append_shift hash3
    (a ++ hash3 ++ b ++ label ++ c ++ ['\n']) d 0
  rw [Nat.add_zero, ← hsplit5, hxlen] at hshift
  have hdrop : (a ++ hash3 ++ b ++ label ++ c ++ '\n' :: d).drop
      (a.length + 3 + b.length + label.length + c.length + 1) = d := by
    rw [hsplit5]
    exact List.drop_left' hxlen
  cases hfd : findFrom hash3 d 0 with
  | none =>
    rw [hfd, Option.map_none'] at hshift
    simp only [searchSection, hp, hi, hj, hshift, hfd, hdrop]
  | some e =>
    rw [hfd, Option.map_some'] at hshift
    simp only [searchSection, hp, hi, hj, hshift, hfd, hdrop]
    have he : a.length + 3 + b.length + label.length + c.length + 1 + e -
        (a.length + 3 + b.length + label.length + c.length + 1) = e := by
      omega
    rw [he]


/-- Amended claim C2: heading detection is case-SENSITIVE on the label text
(the regex has no `re.IGNORECASE`), and the tolerance is broader than the
original claim says: because of `re.DOTALL`, ANY text at all — including
line breaks — may separate a `###` marker from the label, and the marker
need not begin a line.  The section used is determined by the first `###`
occurrence and the first label occurrence after it: for an input of shape
`a ++ "###" ++ b ++ label ++ c ++ "\n" ++ d` (no `###` starting inside `a`,
no label occurrence starting inside `b`, no newline in `c`), the capture is
all of `d` up to the next `###` occurrence or the end of input. -/
theorem claim_C2_amended (label a b c d : List Char)
    (ha : ∀ k, k < a.length →
      occursAt hash3 (a ++ hash3 ++ b ++ label ++ c ++ '\n' :: d) k = false)
    (hb : ∀ k, a.length + 3 ≤ k → k < a.length + 3 + b.length →
      occursAt label (a ++ hash3 ++ b ++ label ++ c ++ '\n' :: d) k = false)
    (hc : '\n' ∉ c) :
    searchSection label (a ++ hash3 ++ b ++ label ++ c ++ '\n' :: d) =
      some (match findFrom hash3 d 0 with
        | none => d
        | some e => d.take e) :=
  searchSection_decomp label a b c d ha hb hc

theorem claim_C2_amended_witness :
    searchSection criticalLabel
        ("Intro text\n".data ++ hash3 ++ [] ++ criticalLabel ++ [] ++
          '\n' :: "1. x\n2. y\n### High Priority\n- z\n".data) =
      some "1. x\n2. y\n".data := by
  rw [claim_C2_amended criticalLabel "Intro text\n".data [] []
    "1. x\n2. y\n### High Priority\n- z\n".data (by decide)
    (by intro k hk0 hk1; rw [List.length_nil] at hk1; omega) (by decide)]
  decide

/-- Claim C7: first-match-wins for duplicate headings.  When the same label
appears in two headings, the count is computed from the section following
the first one: for any section body `A` (no `#`, so the first heading's
capture ends exactly at the duplicate) and ANY continuation `B`, the
critical count of `"### Critical Issues\n" ++ A ++ "### Critical Issues\n"
++ B` is the item count of `A` alone — the duplicate heading and everything
after it contribute nothing. -/
theorem claim_C7 (A B : List Char) (hA : '#' ∉ A) :
    (parse_review_response (String.mk
        ("### Critical Issues\n".data ++ A ++
          "### Critical Issues\n".data ++ B))).critical_count =
      count_items (some A) := by
  have hfd : findFrom hash3 (A ++ "### Critical Issues\n".data ++ B) 0 =
      some A.length := by
    apply findFrom_eq_some
    · exact Nat.zero_le _
    · rw [show A ++ "### Critical Issues\n".data ++ B =
          A ++ ("### Critical Issues\n".data ++ B) from by
        simp [List.append_assoc]]
      have h0 := occursAt_append_shift hash3 A ("### Critical Issues\n".data ++ B) 0
      rw [Nat.add_zero] at h0
      rw [h0]
      rfl
    · simp
    · intro k _ hk1
      cases hocc : occursAt hash3 (A ++ "### Critical Issues\n".data ++ B) k with
      | false => rfl
      | true =>
        exfalso
        have hchar : (A ++ "### Critical Issues\n".data ++ B)[k]? = some '#' :=
          occursAt_cons_getElem '#' ['#', '#'] _ k hocc
        rw [List.getElem?_append_left (by simp; omega)] at hchar
        rw [List.getElem?_append_left hk1] at hchar
        exact hA (List.getElem?_mem hchar)
  have hsec := searchSection_decomp criticalLabel [] [' '] []
    (A ++ "### Critical Issues\n".data ++ B)
    (by intro k hk; rw [List.length_nil] at hk; omega)
    (by
      intro k hk0 hk1
      simp only [List.length_nil, List.length_cons] at hk0 hk1
      have hk3 : k = 3 := by omega
      subst hk3
      rfl)
    (by simp)
  have heq : [] ++ hash3 ++ [' '] ++ criticalLabel ++ [] ++
      '\n' :: (A ++ "### Critical Issues\n".data ++ B) =
      "### Critical Issues\n".data ++ A ++ "### Critical Issues\n".data ++ B := by
    have h1 : ("### Critical Issues\n".data : List Char) =
        [] ++ hash3 ++ [' '] ++ criticalLabel ++ [] ++ ['\n'] := by decide
    rw [h1]
    simp [List.append_assoc]
  rw [heq] at hsec
  show count_items (searchSection criticalLabel
    ("### Critical Issues\n".data ++ A ++ "### Critical Issues\n".data ++ B)) =
    count_items (some A)
  rw [hsec, hfd]
  show count_items (some ((A ++ "### Critical Issues\n".data ++ B).take A.length)) =
    count_items (some A)
  have htake : (A ++ "### Critical Issues\n".data ++ B).take A.length = A := by
    rw [show A ++ "### Critical Issues\n".data ++ B =
        A ++ ("### Critical Issues\n".data ++ B) from by
      simp [List.append_assoc]]
    exact List.take_left A _
  rw [htake]

theorem claim_C7_witness :
    (parse_review_response (String.mk
        ("### Critical Issues\n".data ++ "- a\n".data ++
          "### Critical Issues\n".data ++ "- b\n- c\n".data))).critical_count =
      count_items (some "- a\n".data) :=
  claim_C7 "- a\n".data "- b\n- c\n".data (by decide)

theorem claim_C3_amended_witness :
    count_items (some (List.intercalate ['\n']
        ["- a".data, "  continuation".data, "2. b".data])) =
        (["- a".data, "  continuation".data, "2. b".data] :
          List (List Char)).countP startsMarker ∧
      (startsMarker "* x".data = true ↔ markerLineSpec "* x".data) :=
  ⟨(claim_C3_amended ["- a".data, "  continuation".data, "2. b".data]
      (by decide) (by decide)).1,
    (claim_C3_amended ["- a".data, "  continuation".data, "2. b".data]
      (by decide) (by decide)).2 "* x".data⟩

end ZeroBugAuthority
